import Mathlib

/-!
Shallow embedding of the tag-game engine in `src/games.ts` (Slack-Tag-Game).

The file `src/games.ts` contains two revisions of the engine; the claims'
line references point into the later revision (the `TagGame` class with
`save`/`load`, the helper handlers `startGame`, `joinGame`, `leaveGame`,
`stopGame`, `tagAnotherPlayer`, the `message` event handler and
`givePoints`), which is embedded here.

Modelling conventions:
* A JS `Set<string>` is a `List String` in insertion order; `Set.add`
  appends only when absent, so the list never holds duplicates.
* A JS `Map<string, number>` is a `List (String × Int)` in insertion
  order with unique keys; `Map.set` replaces in place or appends.
  `game.scores.get(p) || 0` reads absent (or zero) entries as `0`.
* `Date.now()` timestamps and scores are `Int`.  JS numeric expressions
  `Math.floor((a - b) / 5)`, `Math.floor(t * 0.1)` and
  `Math.floor(t * (-0.1))` are embedded with exact integer arithmetic as
  `Int.fdiv (a - b) 5`, `Int.fdiv t 10` and `Int.fdiv (-t) 10`
  (floor division); for every magnitude reachable from millisecond
  timestamps the IEEE-754 double computation agrees with the exact one.
* The global `let game: TagGame` (undefined until first assigned) is an
  `Option TagGame`; the persisted `gameData.json` file is an
  `Option Snapshot`.  `TagGame.load()` is modelled with the file restore
  applied synchronously before `start` runs (the source issues the
  restoring `fs.readFile` callback asynchronously).
* Handler replies (`say`/ephemeral messages) are the `Reply` inductive;
  each constructor stands for one distinct user-facing message.
-/

namespace TagBot

/-- `Set.add` on the insertion-ordered element list. -/
def setAdd (l : List String) (x : String) : List String :=
  if x ∈ l then l else l ++ [x]

/-- `Set.delete` on the insertion-ordered element list. -/
def setDelete (l : List String) (x : String) : List String :=
  l.filter (fun y => y ≠ x)

/-- `map.get(k) || 0`: first entry for `k`, defaulting to `0`. -/
def mapGetD (m : List (String × Int)) (k : String) : Int :=
  match m.find? (fun e => e.1 == k) with
  | some e => e.2
  | none => 0

/-- `map.has(k)`. -/
def mapHas (m : List (String × Int)) (k : String) : Bool :=
  m.any (fun e => e.1 == k)

/-- `map.set(k, v)`: replace in place when present, else append. -/
def mapSet (m : List (String × Int)) (k : String) (v : Int) : List (String × Int) :=
  if mapHas m k then m.map (fun e => if e.1 == k then (k, v) else e)
  else m ++ [(k, v)]

/-- `const SCORE_NON_TARGET = 1`. -/
def SCORE_NON_TARGET : Int := 1

/-- `const SCORE_TARGET = -5`. -/
def SCORE_TARGET : Int := -5

/-- The `TagGame` class fields (later revision of `src/games.ts`). -/
structure TagGame where
  players : List String
  scores : List (String × Int)
  host : Option String
  active : Bool
  channel : Option String
  target : Option String
  lastActionTimestamp : Int
deriving DecidableEq

/-- `new TagGame(channel?)`: all collections empty, inactive, no host,
no target, `lastActionTimestamp = Date.now()`. -/
def TagGame.new (now : Int) (channel : Option String) : TagGame :=
  { players := [], scores := [], host := none, active := false,
    channel := channel, target := none, lastActionTimestamp := now }

/-- `TagGame.prototype.start` (later revision): sets the host, adds the
founder, initializes the founder's score when absent, activates, makes
the founder the initial target, and stamps `lastActionTimestamp`. -/
def TagGame.start (g : TagGame) (startingPlayer : String) (now : Int) : TagGame :=
  { g with host := some startingPlayer,
           players := setAdd g.players startingPlayer,
           scores := if mapHas g.scores startingPlayer then g.scores
                     else mapSet g.scores startingPlayer 0,
           active := true,
           target := some startingPlayer,
           lastActionTimestamp := now }

/-- `TagGame.prototype.join`: adds the player, initializes the score
entry to 0 when absent. -/
def TagGame.join (g : TagGame) (player : String) : TagGame :=
  { g with players := setAdd g.players player,
           scores := if mapHas g.scores player then g.scores
                     else mapSet g.scores player 0 }

/-- `TagGame.prototype.stop` (later revision): clears `players`, nulls
`host`, deactivates.  `scores`, `target`, `channel` and
`lastActionTimestamp` are left as they are. -/
def TagGame.stop (g : TagGame) : TagGame :=
  { g with players := [], host := none, active := false }

/-- `TagGame.prototype.leave` (later revision): refuses while the player
is the target or not a member; otherwise removes the player and stops
the game when nobody is left.  Returns the success flag and the
resulting state. -/
def TagGame.leave (g : TagGame) (player : String) : Bool × TagGame :=
  if g.target = some player then (false, g)
  else if player ∈ g.players then
    let g1 := { g with players := setDelete g.players player }
    if g1.players.isEmpty then (true, g1.stop) else (true, g1)
  else (false, g)

/-- The serialized shape written to `gameData.json`. -/
structure Snapshot where
  players : List String
  scores : List (String × Int)
  target : Option String
  lastActionTimestamp : Int
deriving DecidableEq

/-- `TagGame.prototype.save`: the snapshot that is serialized. -/
def TagGame.save (g : TagGame) : Snapshot :=
  { players := g.players, scores := g.scores, target := g.target,
    lastActionTimestamp := g.lastActionTimestamp }

/-- `new Set(array)`: left fold of `Set.add` over the stored array. -/
def setOfList (l : List String) : List String := l.foldl setAdd []

/-- `new Map(entries)`: left fold of `Map.set` over the stored entries. -/
def mapOfList (l : List (String × Int)) : List (String × Int) :=
  l.foldl (fun m e => mapSet m e.1 e.2) []

/-- `TagGame.load()`: a fresh `TagGame`, with `players`, `scores`,
`target` and `lastActionTimestamp` restored from the stored snapshot
when one exists. -/
def TagGame.loadFrom (now : Int) (file : Option Snapshot) : TagGame :=
  let g := TagGame.new now none
  match file with
  | none => g
  | some d =>
    { g with players := setOfList d.players, scores := mapOfList d.scores,
             target := d.target, lastActionTimestamp := d.lastActionTimestamp }

/-- The mutable process state: the global `game` variable and the
persisted `gameData.json` contents. -/
structure World where
  game : Option TagGame
  file : Option Snapshot
deriving DecidableEq

/-- Boot state: `game` undefined, no saved file. -/
def World.init : World := { game := none, file := none }

/-- The distinct user-facing replies of the handlers. -/
inductive Reply where
  | ok
  | alreadyInProgress
  | noGame
  | alreadyJoined
  | notInGame
  | cannotLeaveWhileTarget
  | notHost
  | noTargetSpecified
  | notAPlayer
  | notIt
  | targetNotAPlayer
  | selfTag
  | cooldown (elapsed : Int)
deriving DecidableEq

/-- `startGame(userId, ...)`: rejects while `game?.active`; otherwise
`TagGame.load()` then `game.start(userId)` (which saves). -/
def startGame (w : World) (userId : String) (now : Int) : Reply × World :=
  if (w.game.map TagGame.active).getD false then (.alreadyInProgress, w)
  else
    let g0 := TagGame.loadFrom now w.file
    let g1 := g0.start userId now
    (.ok, { game := some g1, file := some g1.save })

/-- `joinGame(userId, ...)`: no game / already joined checks, then
`game.join(userId)` (which saves). -/
def joinGame (w : World) (userId : String) : Reply × World :=
  match w.game with
  | none => (.noGame, w)
  | some g =>
    if userId ∈ g.players then (.alreadyJoined, w)
    else
      let g1 := g.join userId
      (.ok, { game := some g1, file := some g1.save })

/-- `stopGame(userId, ...)`: no game / host checks, then `game.stop()`
(which saves).  The global `game` stays assigned to the stopped object. -/
def stopGame (w : World) (userId : String) : Reply × World :=
  match w.game with
  | none => (.noGame, w)
  | some g =>
    if ¬ (g.host = some userId) then (.notHost, w)
    else
      let g1 := g.stop
      (.ok, { game := some g1, file := some g1.save })

/-- `leaveGame(userId, ...)`: no game / membership checks, then
`game.leave(userId)`; `leave` saves exactly when it stopped the game
(membership emptied). -/
def leaveGame (w : World) (userId : String) : Reply × World :=
  match w.game with
  | none => (.noGame, w)
  | some g =>
    if userId ∉ g.players then (.notInGame, w)
    else
      let r := g.leave userId
      if r.1 then
        (.ok, { game := some r.2,
                file := if r.2.players.isEmpty then some r.2.save else w.file })
      else (.cannotLeaveWhileTarget, w)

/-- `tagAnotherPlayer(userId, tagTarget, ...)`: the seven checks in
source order, then the tag.  An absent/empty candidate (`null` or `""`,
both falsy) is modelled as `""`.  Note the source assigns
`game.target = tagTarget` before evaluating the cooldown, so a
cooldown rejection still leaves the target switched. -/
def tagAnotherPlayer (w : World) (userId tagTarget : String) (now : Int) :
    Reply × World :=
  match w.game with
  | none => (.noGame, w)
  | some g =>
    if tagTarget = "" then (.noTargetSpecified, w)
    else if userId ∉ g.players then (.notAPlayer, w)
    else if ¬ (g.target = some userId) then (.notIt, w)
    else if tagTarget ∉ g.players then (.targetNotAPlayer, w)
    else if userId = tagTarget then (.selfTag, w)
    else
      let g1 := { g with target := some tagTarget }
      let timeSinceLastAction := Int.fdiv (now - g1.lastActionTimestamp) 5
      if timeSinceLastAction < 5 then
        (.cooldown timeSinceLastAction, { w with game := some g1 })
      else
        let g2 := { g1 with lastActionTimestamp := now }
        let s1 := mapSet g2.scores userId
                   (max (mapGetD g2.scores userId + Int.fdiv timeSinceLastAction 10) 0)
        let s2 := mapSet s1 tagTarget
                   (max (mapGetD s1 tagTarget + Int.fdiv (-timeSinceLastAction) 10) 0)
        let g3 := { g2 with scores := s2 }
        (.ok, { game := some g3, file := some g3.save })

/-- One iteration of the scoring loops: `+1` for a non-target member,
`-5` for the target, floored at `0`. -/
def scoreStep (target : Option String) (scores : List (String × Int))
    (player : String) : List (String × Int) :=
  mapSet scores player
    (max (mapGetD scores player +
          (if target = some player then SCORE_TARGET else SCORE_NON_TARGET)) 0)

/-- The `message` event handler (later revision), on a qualifying
message (public channel, no subtype): updates every member's score,
touches nothing else, saves nothing.  Runs whenever `game` is set,
active or not. -/
def messageTick (w : World) : World :=
  match w.game with
  | none => w
  | some g =>
    { w with game := some { g with scores := g.players.foldl (scoreStep g.target) g.scores } }

/-- `givePoints()` (the interval tick): no-op without an active game;
otherwise applies the same scoring rule to every member, then updates
`lastActionTimestamp` and saves. -/
def givePoints (w : World) (now : Int) : World :=
  match w.game with
  | none => w
  | some g =>
    if g.active then
      let g1 := { g with scores := g.players.foldl (scoreStep g.target) g.scores,
                         lastActionTimestamp := now }
      { game := some g1, file := some g1.save }
    else w

/-- The operations a caller can drive the process with. -/
inductive Op where
  | start (p : String) (now : Int)
  | join (p : String)
  | leave (p : String)
  | tag (u t : String) (now : Int)
  | msg
  | interval (now : Int)
  | stop (p : String)

/-- One operation applied to the world (the reply is discarded). -/
def stepOp (w : World) (o : Op) : World :=
  match o with
  | .start p now => (startGame w p now).2
  | .join p => (joinGame w p).2
  | .leave p => (leaveGame w p).2
  | .tag u t now => (tagAnotherPlayer w u t now).2
  | .msg => messageTick w
  | .interval now => givePoints w now
  | .stop p => (stopGame w p).2

/-- A whole operation sequence applied to the world. -/
def run (w : World) (ops : List Op) : World := ops.foldl stepOp w

/-- The C4 state property for a game object: no duplicate player ids,
no negative score value. -/
def goodGame (g : TagGame) : Prop :=
  g.players.Nodup ∧ ∀ e ∈ g.scores, 0 ≤ e.2

/-- The C4 state property for a stored snapshot. -/
def goodSnap (s : Snapshot) : Prop :=
  s.players.Nodup ∧ ∀ e ∈ s.scores, 0 ≤ e.2

/-- The C4 state property for the optional global game. -/
def goodGameOpt : Option TagGame → Prop
  | none => True
  | some g => goodGame g

/-- The C4 state property for the optional stored snapshot. -/
def goodSnapOpt : Option Snapshot → Prop
  | none => True
  | some s => goodSnap s

/-- The C4 invariant over the whole process state. -/
def Inv (w : World) : Prop := goodGameOpt w.game ∧ goodSnapOpt w.file

instance (g : TagGame) : Decidable (goodGame g) :=
  inferInstanceAs (Decidable (_ ∧ _))

instance (s : Snapshot) : Decidable (goodSnap s) :=
  inferInstanceAs (Decidable (_ ∧ _))

instance : (o : Option TagGame) → Decidable (goodGameOpt o)
  | none => isTrue trivial
  | some g => inferInstanceAs (Decidable (goodGame g))

instance : (o : Option Snapshot) → Decidable (goodSnapOpt o)
  | none => isTrue trivial
  | some s => inferInstanceAs (Decidable (goodSnap s))

instance (w : World) : Decidable (Inv w) :=
  inferInstanceAs (Decidable (_ ∧ _))

/-! ### Lemmas about the `Set` and `Map` embeddings -/

theorem mapHas_false_find? (m : List (String × Int)) (k : String)
    (h : mapHas m k = false) : m.find? (fun e => e.1 == k) = none := by
  induction m with
  | nil => rfl
  | cons e m ih =>
    simp only [mapHas, List.any_cons, Bool.or_eq_false_iff] at h
    rw [List.find?_cons_of_neg _ (by simp [h.1]), ih]
    simpa [mapHas] using h.2

theorem find?_mapSetFn_self (m : List (String × Int)) (k : String) (v : Int)
    (h : mapHas m k = true) :
    (m.map (fun e => if e.1 == k then (k, v) else e)).find? (fun e => e.1 == k) =
      some (k, v) := by
  induction m with
  | nil => simp [mapHas] at h
  | cons e m ih =>
    by_cases he : e.1 == k
    · simp only [List.map_cons, he, if_pos]
      rw [List.find?_cons_of_pos _ (by simp)]
    · have h2 : mapHas m k = true := by
        simpa [mapHas, List.any_cons, he] using h
      simp only [List.map_cons, he, if_neg, Bool.false_eq_true, not_false_iff]
      rw [List.find?_cons_of_neg _ (by simp [he]), ih h2]

theorem find?_mapSetFn_ne (m : List (String × Int)) (k k' : String) (v : Int)
    (hne : ¬ k' = k) :
    (m.map (fun e => if e.1 == k then (k, v) else e)).find? (fun e => e.1 == k') =
      m.find? (fun e => e.1 == k') := by
  induction m with
  | nil => rfl
  | cons e m ih =>
    by_cases he : e.1 == k
    · have h1 : e.1 = k := by simpa using he
      simp only [List.map_cons, he, if_pos]
      rw [List.find?_cons_of_neg _ (by simp [Ne.symm hne]),
          List.find?_cons_of_neg _ (by simp [h1, Ne.symm hne]), ih]
    · simp only [List.map_cons, he, if_neg, Bool.false_eq_true, not_false_iff]
      by_cases he' : e.1 == k'
      · rw [List.find?_cons_of_pos _ (by simpa using he'),
            List.find?_cons_of_pos _ (by simpa using he')]
      · rw [List.find?_cons_of_neg _ (by simpa using he'),
            List.find?_cons_of_neg _ (by simpa using he'), ih]

theorem mapGetD_mapSet_self (m : List (String × Int)) (k : String) (v : Int) :
    mapGetD (mapSet m k v) k = v := by
  unfold mapSet
  split
  · next h => unfold mapGetD; rw [find?_mapSetFn_self m k v h]
  · next h =>
    unfold mapGetD
    rw [List.find?_append, mapHas_false_find? m k (by simpa using h)]
    simp

theorem mapGetD_mapSet_ne (m : List (String × Int)) (k k' : String) (v : Int)
    (hne : ¬ k' = k) : mapGetD (mapSet m k v) k' = mapGetD m k' := by
  unfold mapSet
  split
  · next h => unfold mapGetD; rw [find?_mapSetFn_ne m k k' v hne]
  · next h =>
    unfold mapGetD
    rw [List.find?_append]
    cases hf : m.find? (fun e => e.1 == k') with
    | some e => simp
    | none => simp [Ne.symm hne]

theorem mapSet_nonneg (m : List (String × Int)) (k : String) (v : Int)
    (hm : ∀ e ∈ m, 0 ≤ e.2) (hv : 0 ≤ v) : ∀ e ∈ mapSet m k v, 0 ≤ e.2 := by
  intro e he
  unfold mapSet at he
  split at he
  · rcases List.mem_map.mp he with ⟨a, ha, rfl⟩
    split
    · exact hv
    · exact hm a ha
  · rcases List.mem_append.mp he with h | h
    · exact hm e h
    · rcases List.mem_singleton.mp h with rfl
      exact hv

theorem setAdd_nodup (l : List String) (x : String) (h : l.Nodup) :
    (setAdd l x).Nodup := by
  unfold setAdd
  split
  · exact h
  · next hx => simp [List.nodup_append, h, hx]

theorem setDelete_nodup (l : List String) (x : String) (h : l.Nodup) :
    (setDelete l x).Nodup := List.Nodup.filter _ h

theorem foldl_setAdd_nodup (l acc : List String) (h : acc.Nodup) :
    (l.foldl setAdd acc).Nodup := by
  induction l generalizing acc with
  | nil => exact h
  | cons x l ih => exact ih (setAdd acc x) (setAdd_nodup acc x h)

theorem setOfList_nodup (l : List String) : (setOfList l).Nodup :=
  foldl_setAdd_nodup l [] List.nodup_nil

theorem foldl_scoreStep_nonneg (ps : List String) (tgt : Option String)
    (m : List (String × Int)) (hm : ∀ e ∈ m, 0 ≤ e.2) :
    ∀ e ∈ ps.foldl (scoreStep tgt) m, 0 ≤ e.2 := by
  induction ps generalizing m with
  | nil => exact hm
  | cons p ps ih =>
    exact ih _ (mapSet_nonneg _ _ _ hm (le_max_right _ 0))

theorem foldl_mapSet_nonneg (l : List (String × Int)) :
    ∀ acc, (∀ e ∈ l, 0 ≤ e.2) → (∀ e ∈ acc, 0 ≤ e.2) →
      ∀ e ∈ l.foldl (fun m e => mapSet m e.1 e.2) acc, 0 ≤ e.2 := by
  induction l with
  | nil => intro acc _ hacc; exact hacc
  | cons x l ih =>
    intro acc hl hacc
    exact ih _ (fun e he => hl e (List.mem_cons_of_mem x he))
      (mapSet_nonneg _ _ _ hacc (hl x (List.mem_cons_self x l)))

theorem mapOfList_nonneg (l : List (String × Int)) (hl : ∀ e ∈ l, 0 ≤ e.2) :
    ∀ e ∈ mapOfList l, 0 ≤ e.2 :=
  foldl_mapSet_nonneg l [] hl (by intro e he; cases he)

theorem foldl_setAdd_eq (l : List String) :
    ∀ acc, (acc ++ l).Nodup → l.foldl setAdd acc = acc ++ l := by
  induction l with
  | nil => intro acc _; simp
  | cons x l ih =>
    intro acc h
    have hx : x ∉ acc := by
      intro hmem
      rcases List.nodup_append.mp h with ⟨_, _, hdisj⟩
      exact hdisj hmem (List.mem_cons_self x l)
    have hstep : setAdd acc x = acc ++ [x] := by unfold setAdd; simp [hx]
    rw [List.foldl_cons, hstep, ih (acc ++ [x]) (by simpa using h)]
    simp

theorem setOfList_eq_self (l : List String) (h : l.Nodup) : setOfList l = l := by
  simpa using foldl_setAdd_eq l [] (by simpa using h)

theorem mapHas_eq_true_iff (m : List (String × Int)) (k : String) :
    mapHas m k = true ↔ k ∈ m.map Prod.fst := by
  simp only [mapHas, List.any_eq_true, List.mem_map, beq_iff_eq]

theorem mapSet_not_has (m : List (String × Int)) (k : String) (v : Int)
    (h : mapHas m k = false) : mapSet m k v = m ++ [(k, v)] := by
  unfold mapSet; simp [h]

theorem foldl_mapSet_eq (l : List (String × Int)) :
    ∀ acc, ((acc ++ l).map Prod.fst).Nodup →
      l.foldl (fun m e => mapSet m e.1 e.2) acc = acc ++ l := by
  induction l with
  | nil => intro acc _; simp
  | cons x l ih =>
    intro acc h
    have hx1 : x.1 ∉ acc.map Prod.fst := by
      intro hmem
      have h' := h
      simp only [List.map_append, List.map_cons] at h'
      rcases List.nodup_append.mp h' with ⟨_, _, hdisj⟩
      exact hdisj hmem (List.mem_cons_self _ _)
    have hx : mapHas acc x.1 = false := by
      rw [Bool.eq_false_iff]
      intro htrue
      exact hx1 ((mapHas_eq_true_iff _ _).mp htrue)
    have hstep : mapSet acc x.1 x.2 = acc ++ [x] := by
      rw [mapSet_not_has _ _ _ hx]
    rw [List.foldl_cons, hstep, ih (acc ++ [x]) (by simpa using h)]
    simp

theorem mapOfList_eq_self (l : List (String × Int))
    (h : (l.map Prod.fst).Nodup) : mapOfList l = l := by
  simpa using foldl_mapSet_eq l [] (by simpa using h)

theorem foldl_scoreStep_get (ps : List String) (tgt : Option String) :
    ∀ m p, ps.Nodup →
      mapGetD (ps.foldl (scoreStep tgt) m) p =
        if p ∈ ps then
          max (mapGetD m p +
               (if tgt = some p then SCORE_TARGET else SCORE_NON_TARGET)) 0
        else mapGetD m p := by
  induction ps with
  | nil => intro m p _; simp
  | cons q ps ih =>
    intro m p h
    rcases List.nodup_cons.mp h with ⟨hq, hps⟩
    rw [List.foldl_cons]
    by_cases hpq : p = q
    · subst hpq
      rw [ih _ p hps, if_neg hq, if_pos (List.mem_cons_self p ps)]
      unfold scoreStep
      rw [mapGetD_mapSet_self]
    · rw [ih _ p hps]
      have hstep : mapGetD (scoreStep tgt m q) p = mapGetD m p := by
        unfold scoreStep; rw [mapGetD_mapSet_ne _ _ _ _ hpq]
      by_cases hpm : p ∈ ps
      · rw [if_pos hpm, if_pos (List.mem_cons_of_mem q hpm), hstep]
      · rw [if_neg hpm, if_neg (by simp [hpq, hpm]), hstep]

/-! ### Preservation of the C4 invariant -/

theorem goodSnap_save (g : TagGame) (h : goodGame g) : goodSnap g.save :=
  ⟨h.1, h.2⟩

theorem goodGame_loadFrom (now : Int) (f : Option Snapshot)
    (h : goodSnapOpt f) : goodGame (TagGame.loadFrom now f) := by
  cases f with
  | none => exact ⟨List.nodup_nil, fun e he => absurd he (List.not_mem_nil e)⟩
  | some d => exact ⟨setOfList_nodup _, mapOfList_nonneg _ h.2⟩

theorem goodGame_start (g : TagGame) (p : String) (now : Int)
    (h : goodGame g) : goodGame (g.start p now) := by
  refine ⟨setAdd_nodup _ _ h.1, ?_⟩
  show ∀ e ∈ (if mapHas g.scores p then g.scores else mapSet g.scores p 0), 0 ≤ e.2
  split
  · exact h.2
  · exact mapSet_nonneg _ _ _ h.2 le_rfl

theorem goodGame_join (g : TagGame) (p : String) (h : goodGame g) :
    goodGame (g.join p) := by
  refine ⟨setAdd_nodup _ _ h.1, ?_⟩
  show ∀ e ∈ (if mapHas g.scores p then g.scores else mapSet g.scores p 0), 0 ≤ e.2
  split
  · exact h.2
  · exact mapSet_nonneg _ _ _ h.2 le_rfl

theorem goodGame_stop (g : TagGame) (h : goodGame g) : goodGame g.stop :=
  ⟨List.nodup_nil, h.2⟩

theorem goodGame_leave (g : TagGame) (p : String) (h : goodGame g) :
    goodGame (g.leave p).2 := by
  unfold TagGame.leave
  split
  · exact h
  · split
    · dsimp only
      split
      · exact goodGame_stop _ ⟨setDelete_nodup _ _ h.1, h.2⟩
      · exact ⟨setDelete_nodup _ _ h.1, h.2⟩
    · exact h

theorem inv_startGame (w : World) (p : String) (now : Int) (h : Inv w) :
    Inv (startGame w p now).2 := by
  unfold startGame
  split
  · exact h
  · have hg : goodGame ((TagGame.loadFrom now w.file).start p now) :=
      goodGame_start _ _ _ (goodGame_loadFrom now w.file h.2)
    exact ⟨hg, goodSnap_save _ hg⟩

theorem inv_joinGame (w : World) (p : String) (h : Inv w) :
    Inv (joinGame w p).2 := by
  unfold joinGame
  cases hw : w.game with
  | none => exact h
  | some g =>
    have hg : goodGame g := by have := h.1; rw [hw] at this; exact this
    dsimp only
    split
    · exact h
    · exact ⟨goodGame_join g p hg, goodSnap_save _ (goodGame_join g p hg)⟩

theorem inv_stopGame (w : World) (p : String) (h : Inv w) :
    Inv (stopGame w p).2 := by
  unfold stopGame
  cases hw : w.game with
  | none => exact h
  | some g =>
    have hg : goodGame g := by have := h.1; rw [hw] at this; exact this
    dsimp only
    split
    · exact h
    · exact ⟨goodGame_stop g hg, goodSnap_save _ (goodGame_stop g hg)⟩

theorem inv_leaveGame (w : World) (p : String) (h : Inv w) :
    Inv (leaveGame w p).2 := by
  unfold leaveGame
  cases hw : w.game with
  | none => exact h
  | some g =>
    have hg : goodGame g := by have := h.1; rw [hw] at this; exact this
    have hgl : goodGame (g.leave p).2 := goodGame_leave g p hg
    dsimp only
    split
    · exact h
    · split
      · refine ⟨hgl, ?_⟩
        split
        · exact goodSnap_save _ hgl
        · exact h.2
      · exact h

theorem inv_tagAnotherPlayer (w : World) (u t : String) (now : Int)
    (h : Inv w) : Inv (tagAnotherPlayer w u t now).2 := by
  unfold tagAnotherPlayer
  cases hw : w.game with
  | none => exact h
  | some g =>
    have hg : goodGame g := by have := h.1; rw [hw] at this; exact this
    dsimp only
    split
    · exact h
    · split
      · exact h
      · split
        · exact h
        · split
          · exact h
          · split
            · exact h
            · split
              · exact ⟨⟨hg.1, hg.2⟩, h.2⟩
              · have hs : goodGame
                    { g with target := some t, lastActionTimestamp := now,
                             scores := mapSet
                               (mapSet g.scores u
                                 (max (mapGetD g.scores u +
                                   Int.fdiv (Int.fdiv (now - g.lastActionTimestamp) 5) 10) 0))
                               t
                               (max (mapGetD
                                 (mapSet g.scores u
                                   (max (mapGetD g.scores u +
                                     Int.fdiv (Int.fdiv (now - g.lastActionTimestamp) 5) 10) 0)) t +
                                   Int.fdiv (-(Int.fdiv (now - g.lastActionTimestamp) 5)) 10) 0) } := by
                  refine ⟨hg.1, ?_⟩
                  exact mapSet_nonneg _ _ _
                    (mapSet_nonneg _ _ _ hg.2 (le_max_right _ 0)) (le_max_right _ 0)
                exact ⟨hs, goodSnap_save _ hs⟩

theorem inv_messageTick (w : World) (h : Inv w) : Inv (messageTick w) := by
  unfold messageTick
  cases hw : w.game with
  | none => exact h
  | some g =>
    have hg : goodGame g := by have := h.1; rw [hw] at this; exact this
    exact ⟨⟨hg.1, foldl_scoreStep_nonneg _ _ _ hg.2⟩, h.2⟩

theorem inv_givePoints (w : World) (now : Int) (h : Inv w) :
    Inv (givePoints w now) := by
  unfold givePoints
  cases hw : w.game with
  | none => exact h
  | some g =>
    have hg : goodGame g := by have := h.1; rw [hw] at this; exact this
    dsimp only
    split
    · have hs : goodGame { g with
          scores := g.players.foldl (scoreStep g.target) g.scores,
          lastActionTimestamp := now } :=
        ⟨hg.1, foldl_scoreStep_nonneg _ _ _ hg.2⟩
      exact ⟨hs, goodSnap_save _ hs⟩
    · exact h

theorem inv_stepOp (w : World) (o : Op) (h : Inv w) : Inv (stepOp w o) := by
  cases o with
  | start p now => exact inv_startGame w p now h
  | join p => exact inv_joinGame w p h
  | leave p => exact inv_leaveGame w p h
  | tag u t now => exact inv_tagAnotherPlayer w u t now h
  | msg => exact inv_messageTick w h
  | interval now => exact inv_givePoints w now h
  | stop p => exact inv_stopGame w p h

theorem inv_run (ops : List Op) : ∀ w, Inv w → Inv (run w ops) := by
  induction ops with
  | nil => intro w h; exact h
  | cons o ops ih => intro w h; exact ih (stepOp w o) (inv_stepOp w o h)

/-! ### Branch lemmas for `tagAnotherPlayer` -/

theorem tag_err_noGame (w : World) (u t : String) (now : Int)
    (hw : w.game = none) : tagAnotherPlayer w u t now = (Reply.noGame, w) := by
  unfold tagAnotherPlayer; rw [hw]

theorem tag_err_noTarget (w : World) (g : TagGame) (u t : String) (now : Int)
    (hw : w.game = some g) (h2 : t = "") :
    tagAnotherPlayer w u t now = (Reply.noTargetSpecified, w) := by
  unfold tagAnotherPlayer; rw [hw]; dsimp only; rw [if_pos h2]

theorem tag_err_notAPlayer (w : World) (g : TagGame) (u t : String) (now : Int)
    (hw : w.game = some g) (h2 : ¬ t = "") (h3 : u ∉ g.players) :
    tagAnotherPlayer w u t now = (Reply.notAPlayer, w) := by
  unfold tagAnotherPlayer; rw [hw]; dsimp only
  rw [if_neg h2, if_pos h3]

theorem tag_err_notIt (w : World) (g : TagGame) (u t : String) (now : Int)
    (hw : w.game = some g) (h2 : ¬ t = "") (h3 : u ∈ g.players)
    (h4 : ¬ g.target = some u) :
    tagAnotherPlayer w u t now = (Reply.notIt, w) := by
  unfold tagAnotherPlayer; rw [hw]; dsimp only
  rw [if_neg h2, if_neg (not_not_intro h3), if_pos h4]

theorem tag_err_targetNotAPlayer (w : World) (g : TagGame) (u t : String)
    (now : Int) (hw : w.game = some g) (h2 : ¬ t = "") (h3 : u ∈ g.players)
    (h4 : g.target = some u) (h5 : t ∉ g.players) :
    tagAnotherPlayer w u t now = (Reply.targetNotAPlayer, w) := by
  unfold tagAnotherPlayer; rw [hw]; dsimp only
  rw [if_neg h2, if_neg (not_not_intro h3), if_neg (not_not_intro h4), if_pos h5]

theorem tag_err_selfTag (w : World) (g : TagGame) (u t : String) (now : Int)
    (hw : w.game = some g) (h2 : ¬ t = "") (h3 : u ∈ g.players)
    (h4 : g.target = some u) (h5 : t ∈ g.players) (h6 : u = t) :
    tagAnotherPlayer w u t now = (Reply.selfTag, w) := by
  unfold tagAnotherPlayer; rw [hw]; dsimp only
  rw [if_neg h2, if_neg (not_not_intro h3), if_neg (not_not_intro h4),
      if_neg (not_not_intro h5), if_pos h6]

theorem tag_cooldown_state (w : World) (g : TagGame) (u t : String) (now : Int)
    (hw : w.game = some g) (h2 : ¬ t = "") (h3 : u ∈ g.players)
    (h4 : g.target = some u) (h5 : t ∈ g.players) (h6 : ¬ u = t)
    (h7 : Int.fdiv (now - g.lastActionTimestamp) 5 < 5) :
    tagAnotherPlayer w u t now =
      (Reply.cooldown (Int.fdiv (now - g.lastActionTimestamp) 5),
       { w with game := some { g with target := some t } }) := by
  unfold tagAnotherPlayer; rw [hw]; dsimp only
  rw [if_neg h2, if_neg (not_not_intro h3), if_neg (not_not_intro h4),
      if_neg (not_not_intro h5), if_neg h6]
  rw [if_pos h7]

/-- The state produced by a fully successful tag: target switched,
timestamp updated, the tagger's and the tagged player's scores adjusted
by the clamped time bonuses. -/
def tagSuccessGame (g : TagGame) (u t : String) (now : Int) : TagGame :=
  let timeSinceLastAction := Int.fdiv (now - g.lastActionTimestamp) 5
  let s1 := mapSet g.scores u
              (max (mapGetD g.scores u + Int.fdiv timeSinceLastAction 10) 0)
  let s2 := mapSet s1 t
              (max (mapGetD s1 t + Int.fdiv (-timeSinceLastAction) 10) 0)
  { g with target := some t, lastActionTimestamp := now, scores := s2 }

theorem tag_success_state (w : World) (g : TagGame) (u t : String) (now : Int)
    (hw : w.game = some g) (h2 : ¬ t = "") (h3 : u ∈ g.players)
    (h4 : g.target = some u) (h5 : t ∈ g.players) (h6 : ¬ u = t)
    (h7 : 5 ≤ Int.fdiv (now - g.lastActionTimestamp) 5) :
    tagAnotherPlayer w u t now =
      (Reply.ok, { game := some (tagSuccessGame g u t now),
                   file := some (tagSuccessGame g u t now).save }) := by
  unfold tagAnotherPlayer; rw [hw]; dsimp only
  rw [if_neg h2, if_neg (not_not_intro h3), if_neg (not_not_intro h4),
      if_neg (not_not_intro h5), if_neg h6]
  rw [if_neg (not_lt.mpr h7)]
  rfl

/-! ### Claim theorems -/

/-- C4: for every sequence of start/join/leave/tag/message-tick/
interval-tick (and stop) operations from the initial absent-session
state, the players collection never contains duplicate player ids and
every value in the scores mapping is greater than or equal to zero
after every step — both in the live game object and in every persisted
snapshot. -/
theorem c4_no_dup_players_nonneg_scores (ops : List Op) :
    Inv (run World.init ops) :=
  inv_run ops World.init ⟨trivial, trivial⟩

/-- Witness for C4 at a concrete operation sequence. -/
theorem c4_no_dup_players_nonneg_scores_witness :
    Inv (run World.init [Op.start "A" 0, Op.join "B", Op.msg, Op.interval 60]) :=
  c4_no_dup_players_nonneg_scores [Op.start "A" 0, Op.join "B", Op.msg, Op.interval 60]

/-- C9: `save` followed by `load` reconstructs a session whose
`players`, `scores`, `target` and `lastActionTimestamp` are identical
to those of the saved session (the stored arrays are rebuilt through
`new Set` / `new Map`, which are the identity on duplicate-free data). -/
theorem c9_save_load_roundtrip (g : TagGame) (now : Int)
    (h1 : g.players.Nodup) (h2 : (g.scores.map Prod.fst).Nodup) :
    (TagGame.loadFrom now (some g.save)).players = g.players ∧
    (TagGame.loadFrom now (some g.save)).scores = g.scores ∧
    (TagGame.loadFrom now (some g.save)).target = g.target ∧
    (TagGame.loadFrom now (some g.save)).lastActionTimestamp =
      g.lastActionTimestamp := by
  refine ⟨?_, ?_, rfl, rfl⟩
  · show setOfList g.players = g.players
    exact setOfList_eq_self _ h1
  · show mapOfList g.scores = g.scores
    exact mapOfList_eq_self _ h2

/-- Witness for C9 at a concrete session. -/
theorem c9_save_load_roundtrip_witness :
    (TagGame.loadFrom 99 (some (TagGame.mk ["A", "B"] [("A", 3), ("B", 0)]
        (some "A") true none (some "B") 42).save)).players = ["A", "B"] ∧
    (TagGame.loadFrom 99 (some (TagGame.mk ["A", "B"] [("A", 3), ("B", 0)]
        (some "A") true none (some "B") 42).save)).scores = [("A", 3), ("B", 0)] ∧
    (TagGame.loadFrom 99 (some (TagGame.mk ["A", "B"] [("A", 3), ("B", 0)]
        (some "A") true none (some "B") 42).save)).target = some "B" ∧
    (TagGame.loadFrom 99 (some (TagGame.mk ["A", "B"] [("A", 3), ("B", 0)]
        (some "A") true none (some "B") 42).save)).lastActionTimestamp = 42 :=
  c9_save_load_roundtrip
    (TagGame.mk ["A", "B"] [("A", 3), ("B", 0)] (some "A") true none (some "B") 42)
    99 (by decide) (by decide)

/-- C2: the claim that every protocol/state-error rejection leaves the
session unchanged is violated by the code: `tagAnotherPlayer` assigns
`game.target = tagTarget` before evaluating the cooldown, so a tag
rejected with the cooldown message has already switched the target.
Here, from the reachable state after `start("A")` at time 0 and
`join("B")` (where the target is `"A"`), a tag of `"B"` by `"A"` at
time 3 is rejected with the cooldown reply, yet the target afterwards
is `"B"`. -/
theorem c2_cooldown_mutates_target :
    (tagAnotherPlayer (run World.init [Op.start "A" 0, Op.join "B"]) "A" "B" 3).1 =
      Reply.cooldown 0 ∧
    ((run World.init [Op.start "A" 0, Op.join "B"]).game.map TagGame.target) =
      some (some "A") ∧
    ((tagAnotherPlayer (run World.init [Op.start "A" 0, Op.join "B"]) "A" "B" 3).2.game.map
      TagGame.target) = some (some "B") ∧
    some (some "B") ≠ some (some "A") := by decide

/-- C8: the claim that a departing host is replaced by a remaining
member is violated by the later revision's `leave`: from the reachable
state after `start("A")`, `join("B")`, a successful tag of `"B"` by
`"A"`, when the host `"A"` leaves, the session stays active with
players `["B"]` but the host is still `"A"`, which is no longer a
member (invariant I2 broken). -/
theorem c8_host_not_reassigned_on_leave :
    ((run World.init [Op.start "A" 0, Op.join "B", Op.tag "A" "B" 100,
        Op.leave "A"]).game.map (fun g => (g.players, g.host, g.active))) =
      some (["B"], some "A", true) ∧
    "A" ∉ ["B"] := by decide

/-- C3: for every successful tag — all preconditions including the
cooldown satisfied — the session's target afterwards equals the tagged
candidate and `lastActionTimestamp` afterwards equals the time at which
the tag was accepted. -/
theorem c3_tag_success_postcondition (w : World) (g : TagGame)
    (u t : String) (now : Int) (hw : w.game = some g) (h2 : ¬ t = "")
    (h3 : u ∈ g.players) (h4 : g.target = some u) (h5 : t ∈ g.players)
    (h6 : ¬ u = t) (h7 : 5 ≤ Int.fdiv (now - g.lastActionTimestamp) 5) :
    (tagAnotherPlayer w u t now).1 = Reply.ok ∧
    ((tagAnotherPlayer w u t now).2.game.map TagGame.target) = some (some t) ∧
    ((tagAnotherPlayer w u t now).2.game.map TagGame.lastActionTimestamp) =
      some now := by
  rw [tag_success_state w g u t now hw h2 h3 h4 h5 h6 h7]
  exact ⟨rfl, rfl, rfl⟩

/-- Witness for C3 at a concrete successful tag. -/
theorem c3_tag_success_postcondition_witness :
    (tagAnotherPlayer (run World.init [Op.start "A" 0, Op.join "B"]) "A" "B" 100).1 =
      Reply.ok ∧
    ((tagAnotherPlayer (run World.init [Op.start "A" 0, Op.join "B"]) "A" "B" 100).2.game.map
      TagGame.target) = some (some "B") ∧
    ((tagAnotherPlayer (run World.init [Op.start "A" 0, Op.join "B"]) "A" "B" 100).2.game.map
      TagGame.lastActionTimestamp) = some 100 :=
  c3_tag_success_postcondition (run World.init [Op.start "A" 0, Op.join "B"])
    (TagGame.mk ["A", "B"] [("A", 0), ("B", 0)] (some "A") true none (some "A") 0)
    "A" "B" 100 (by decide) (by decide) (by decide) (by decide) (by decide)
    (by decide) (by decide)

/-- C6: with `lastActionTimestamp = T` and every other precondition
satisfied, a tag attempt at `T + Δ` passes the cooldown gate if and
only if `floor(Δ/5) ≥ 5`, and at exactly the boundary
`floor(Δ/5) = 5` it succeeds. -/
theorem c6_cooldown_gate (w : World) (g : TagGame) (u t : String) (T d : Int)
    (hw : w.game = some g) (hT : g.lastActionTimestamp = T) (h2 : ¬ t = "")
    (h3 : u ∈ g.players) (h4 : g.target = some u) (h5 : t ∈ g.players)
    (h6 : ¬ u = t) :
    ((tagAnotherPlayer w u t (T + d)).1 = Reply.ok ↔ 5 ≤ Int.fdiv d 5) ∧
    (Int.fdiv d 5 = 5 → (tagAnotherPlayer w u t (T + d)).1 = Reply.ok) := by
  have hd : Int.fdiv (T + d - g.lastActionTimestamp) 5 = Int.fdiv d 5 := by
    rw [hT, add_sub_cancel_left]
  have hiff : (tagAnotherPlayer w u t (T + d)).1 = Reply.ok ↔ 5 ≤ Int.fdiv d 5 := by
    constructor
    · intro hok
      by_contra hlt
      rw [tag_cooldown_state w g u t (T + d) hw h2 h3 h4 h5 h6
            (by rw [hd]; exact lt_of_not_le hlt)] at hok
      exact absurd hok (by simp)
    · intro hge
      rw [tag_success_state w g u t (T + d) hw h2 h3 h4 h5 h6
            (by rw [hd]; exact hge)]
  exact ⟨hiff, fun hb => hiff.mpr (le_of_eq hb.symm)⟩

/-- Witness for C6 at the exact boundary: `Δ = 25`, so
`floor(Δ/5) = 5` and the tag succeeds. -/
theorem c6_cooldown_gate_witness :
    ((tagAnotherPlayer (run World.init [Op.start "A" 7, Op.join "B"]) "A" "B"
        (7 + 25)).1 = Reply.ok ↔ 5 ≤ Int.fdiv 25 5) ∧
    (Int.fdiv 25 5 = 5 → (tagAnotherPlayer (run World.init [Op.start "A" 7, Op.join "B"])
        "A" "B" (7 + 25)).1 = Reply.ok) :=
  c6_cooldown_gate (run World.init [Op.start "A" 7, Op.join "B"])
    (TagGame.mk ["A", "B"] [("A", 0), ("B", 0)] (some "A") true none (some "A") 7)
    "A" "B" 7 25 (by decide) (by decide) (by decide) (by decide) (by decide)
    (by decide) (by decide)

/-- C5 as stated is false: during a tag the acting player is the prior
target (only "it" may tag), and the code applies the negative
adjustment to the newly tagged candidate, not to the prior target.
Concretely: after `start("A")` at 0, `join("B")`, and ten message
ticks, the scores are `A = 0` (A is the target) and `B = 10`; a tag of
`"B"` by `"A"` at time 1000 has `elapsed = floor(1000/5) = 200`, and
the claim requires the prior target `"A"` to end at
`max(0 + floor(200 * -0.1), 0) = 0` — but the code leaves `"A"` at
`max(0 + floor(200 * 0.1), 0) = 20` and instead drives `"B"` from 10
to 0. -/
theorem c5_prior_target_counterexample :
    ((run World.init [Op.start "A" 0, Op.join "B", Op.msg, Op.msg, Op.msg,
        Op.msg, Op.msg, Op.msg, Op.msg, Op.msg, Op.msg, Op.msg,
        Op.tag "A" "B" 1000]).game.map (fun g => mapGetD g.scores "A")) =
      some 20 ∧
    max ((0 : Int) + Int.fdiv (-(Int.fdiv ((1000 : Int) - 0) 5)) 10) 0 = 0 ∧
    (20 : Int) ≠ 0 ∧
    ((run World.init [Op.start "A" 0, Op.join "B", Op.msg, Op.msg, Op.msg,
        Op.msg, Op.msg, Op.msg, Op.msg, Op.msg, Op.msg, Op.msg,
        Op.tag "A" "B" 1000]).game.map (fun g => mapGetD g.scores "B")) =
      some 0 := by decide

/-- C5 amended: on every successful tag, with
`elapsed = floor((now - lastActionTimestamp) / 5)`, the actor's score
becomes its old value plus `floor(elapsed * 0.1)` clamped at 0, and the
newly tagged candidate's score becomes its old value plus
`floor(elapsed * -0.1)` clamped at 0 (exact-arithmetic reading of the
multipliers 0.1 and -0.1). -/
theorem c5_tag_scoring_amended (w : World) (g : TagGame) (u t : String)
    (now : Int) (hw : w.game = some g) (h2 : ¬ t = "") (h3 : u ∈ g.players)
    (h4 : g.target = some u) (h5 : t ∈ g.players) (h6 : ¬ u = t)
    (h7 : 5 ≤ Int.fdiv (now - g.lastActionTimestamp) 5) :
    ((tagAnotherPlayer w u t now).2.game.map (fun g1 => mapGetD g1.scores u)) =
      some (max (mapGetD g.scores u +
        Int.fdiv (Int.fdiv (now - g.lastActionTimestamp) 5) 10) 0) ∧
    ((tagAnotherPlayer w u t now).2.game.map (fun g1 => mapGetD g1.scores t)) =
      some (max (mapGetD g.scores t +
        Int.fdiv (-(Int.fdiv (now - g.lastActionTimestamp) 5)) 10) 0) := by
  rw [tag_success_state w g u t now hw h2 h3 h4 h5 h6 h7]
  dsimp only [tagSuccessGame, Option.map]
  constructor
  · rw [mapGetD_mapSet_ne _ _ _ _ h6, mapGetD_mapSet_self]
  · rw [mapGetD_mapSet_self, mapGetD_mapSet_ne _ _ _ _ (fun h => h6 h.symm)]

/-- Witness for the amended C5 at a concrete successful tag. -/
theorem c5_tag_scoring_amended_witness :
    ((tagAnotherPlayer (run World.init [Op.start "A" 0, Op.join "B"]) "A" "B"
        1000).2.game.map (fun g1 => mapGetD g1.scores "A")) =
      some (max ((0 : Int) + Int.fdiv (Int.fdiv ((1000 : Int) - 0) 5) 10) 0) ∧
    ((tagAnotherPlayer (run World.init [Op.start "A" 0, Op.join "B"]) "A" "B"
        1000).2.game.map (fun g1 => mapGetD g1.scores "B")) =
      some (max ((0 : Int) + Int.fdiv (-(Int.fdiv ((1000 : Int) - 0) 5)) 10) 0) :=
  c5_tag_scoring_amended (run World.init [Op.start "A" 0, Op.join "B"])
    (TagGame.mk ["A", "B"] [("A", 0), ("B", 0)] (some "A") true none (some "A") 0)
    "A" "B" 1000 (by decide) (by decide) (by decide) (by decide) (by decide)
    (by decide) (by decide)

/-- C7 as stated is false: the later revision's `stop` clears only
`players`, `host` and `active`; `scores` and `target` are retained.
Concretely: after `start("A")` at 0 the host `"A"` stops the game
successfully, yet the scores are still `[("A", 0)]` (not empty) and the
target is still `"A"` (not null). -/
theorem c7_stop_retains_scores_counterexample :
    (stopGame (run World.init [Op.start "A" 0]) "A").1 = Reply.ok ∧
    ((stopGame (run World.init [Op.start "A" 0]) "A").2.game.map TagGame.scores) =
      some [("A", 0)] ∧
    ((stopGame (run World.init [Op.start "A" 0]) "A").2.game.map TagGame.target) =
      some (some "A") ∧
    ([("A", (0 : Int))] ≠ ([] : List (String × Int))) ∧
    ((some "A" : Option String) ≠ none) := by decide

/-- C7 amended: `stopGame(requester)` fails with the no-session reply
when no game object exists and with the not-host reply when the
requester is not the host, in both cases leaving the state unchanged;
on success it empties `players`, nulls `host` and deactivates, while
`scores`, `target` and `lastActionTimestamp` are retained. -/
theorem c7_stop_spec_amended (w : World) (u : String) :
    (w.game = none → stopGame w u = (Reply.noGame, w)) ∧
    (∀ g, w.game = some g → ¬ g.host = some u →
      stopGame w u = (Reply.notHost, w)) ∧
    (∀ g, w.game = some g → g.host = some u →
      (stopGame w u).1 = Reply.ok ∧
      ((stopGame w u).2.game.map TagGame.players) = some [] ∧
      ((stopGame w u).2.game.map TagGame.host) = some none ∧
      ((stopGame w u).2.game.map TagGame.active) = some false ∧
      ((stopGame w u).2.game.map TagGame.scores) = some g.scores ∧
      ((stopGame w u).2.game.map TagGame.target) = some g.target ∧
      ((stopGame w u).2.game.map TagGame.lastActionTimestamp) =
        some g.lastActionTimestamp) := by
  refine ⟨?_, ?_, ?_⟩
  · intro h; unfold stopGame; rw [h]
  · intro g hg hh; unfold stopGame; rw [hg]; dsimp only; rw [if_pos hh]
  · intro g hg hh; unfold stopGame; rw [hg]; dsimp only
    rw [if_neg (not_not_intro hh)]
    exact ⟨rfl, rfl, rfl, rfl, rfl, rfl, rfl⟩

/-- Witness for the amended C7 at a concrete successful stop. -/
theorem c7_stop_spec_amended_witness :
    (stopGame (run World.init [Op.start "A" 0, Op.join "B"]) "A").1 = Reply.ok ∧
    ((stopGame (run World.init [Op.start "A" 0, Op.join "B"]) "A").2.game.map
      TagGame.players) = some [] ∧
    ((stopGame (run World.init [Op.start "A" 0, Op.join "B"]) "A").2.game.map
      TagGame.host) = some none ∧
    ((stopGame (run World.init [Op.start "A" 0, Op.join "B"]) "A").2.game.map
      TagGame.active) = some false ∧
    ((stopGame (run World.init [Op.start "A" 0, Op.join "B"]) "A").2.game.map
      TagGame.scores) = some [("A", 0), ("B", 0)] ∧
    ((stopGame (run World.init [Op.start "A" 0, Op.join "B"]) "A").2.game.map
      TagGame.target) = some (some "A") ∧
    ((stopGame (run World.init [Op.start "A" 0, Op.join "B"]) "A").2.game.map
      TagGame.lastActionTimestamp) = some 0 :=
  (c7_stop_spec_amended (run World.init [Op.start "A" 0, Op.join "B"]) "A").2.2
    (TagGame.mk ["A", "B"] [("A", 0), ("B", 0)] (some "A") true none (some "A") 0)
    (by decide) (by decide)

/-- C10: a message tick on an existing session changes only the scores
mapping — each current member's score is updated by the clamped
`+1`/`-5` rule and non-members' entries are untouched — while
`players`, `host`, `target`, `active`, `channel`,
`lastActionTimestamp` and the persisted file are left unchanged; in
contrast the interval tick (`givePoints`) on an active session
additionally sets `lastActionTimestamp` to the current time. -/
theorem c10_message_tick_frame (w : World) (g : TagGame) (now : Int)
    (hw : w.game = some g) (hn : g.players.Nodup) :
    ((messageTick w).game.map TagGame.players) = some g.players ∧
    ((messageTick w).game.map TagGame.host) = some g.host ∧
    ((messageTick w).game.map TagGame.target) = some g.target ∧
    ((messageTick w).game.map TagGame.active) = some g.active ∧
    ((messageTick w).game.map TagGame.channel) = some g.channel ∧
    ((messageTick w).game.map TagGame.lastActionTimestamp) =
      some g.lastActionTimestamp ∧
    (messageTick w).file = w.file ∧
    (∀ p ∈ g.players,
      ((messageTick w).game.map (fun g1 => mapGetD g1.scores p)) =
        some (max (mapGetD g.scores p +
          (if g.target = some p then SCORE_TARGET else SCORE_NON_TARGET)) 0)) ∧
    (∀ p, p ∉ g.players →
      ((messageTick w).game.map (fun g1 => mapGetD g1.scores p)) =
        some (mapGetD g.scores p)) ∧
    (g.active = true →
      ((givePoints w now).game.map TagGame.lastActionTimestamp) = some now) := by
  unfold messageTick givePoints
  rw [hw]
  dsimp only
  refine ⟨rfl, rfl, rfl, rfl, rfl, rfl, rfl, ?_, ?_, ?_⟩
  · intro p hp
    rw [Option.map_some']
    dsimp only
    rw [foldl_scoreStep_get g.players g.target g.scores p hn, if_pos hp]
  · intro p hp
    rw [Option.map_some']
    dsimp only
    rw [foldl_scoreStep_get g.players g.target g.scores p hn, if_neg hp]
  · intro hact
    rw [if_pos hact]
    rfl

/-- Witness for C10 at a concrete session. -/
theorem c10_message_tick_frame_witness :
    ((messageTick (run World.init [Op.start "A" 0, Op.join "B"])).game.map
      TagGame.players) = some ["A", "B"] ∧
    ((messageTick (run World.init [Op.start "A" 0, Op.join "B"])).game.map
      TagGame.host) = some (some "A") ∧
    ((messageTick (run World.init [Op.start "A" 0, Op.join "B"])).game.map
      TagGame.target) = some (some "A") ∧
    ((messageTick (run World.init [Op.start "A" 0, Op.join "B"])).game.map
      TagGame.active) = some true ∧
    ((messageTick (run World.init [Op.start "A" 0, Op.join "B"])).game.map
      TagGame.channel) = some none ∧
    ((messageTick (run World.init [Op.start "A" 0, Op.join "B"])).game.map
      TagGame.lastActionTimestamp) = some 0 ∧
    (messageTick (run World.init [Op.start "A" 0, Op.join "B"])).file =
      (run World.init [Op.start "A" 0, Op.join "B"]).file ∧
    (∀ p ∈ ["A", "B"],
      ((messageTick (run World.init [Op.start "A" 0, Op.join "B"])).game.map
        (fun g1 => mapGetD g1.scores p)) =
          some (max (mapGetD [("A", 0), ("B", 0)] p +
            (if (some "A" : Option String) = some p then SCORE_TARGET
             else SCORE_NON_TARGET)) 0)) ∧
    (∀ p, p ∉ ["A", "B"] →
      ((messageTick (run World.init [Op.start "A" 0, Op.join "B"])).game.map
        (fun g1 => mapGetD g1.scores p)) = some (mapGetD [("A", 0), ("B", 0)] p)) ∧
    (true = true →
      ((givePoints (run World.init [Op.start "A" 0, Op.join "B"]) 60).game.map
        TagGame.lastActionTimestamp) = some 60) :=
  c10_message_tick_frame (run World.init [Op.start "A" 0, Op.join "B"])
    (TagGame.mk ["A", "B"] [("A", 0), ("B", 0)] (some "A") true none (some "A") 0)
    60 (by decide) (by decide)

/-- C1 as stated is false: the code's first check is whether a game
object exists (`!game`), not whether the session is active.  After a
stop the game object persists with `active = false`: from the
reachable state after `start("A")` at 0, `join("B")`, `stop("A")`, a
tag request by `"A"` on `"B"` finds the session inactive — so by the
claim its first violated precondition is "session active" and the
no-session error is due — but the caller instead receives the
"actor not a member" error (the membership list was cleared by the
stop). -/
theorem c1_inactive_session_counterexample :
    ((run World.init [Op.start "A" 0, Op.join "B", Op.stop "A"]).game.map
      TagGame.active) = some false ∧
    (tagAnotherPlayer (run World.init [Op.start "A" 0, Op.join "B", Op.stop "A"])
      "A" "B" 100).1 = Reply.notAPlayer ∧
    Reply.notAPlayer ≠ Reply.noGame := by decide

/-- C1 amended: with precondition (a) read as "a session object
exists" (rather than "the session is active"), the tag succeeds iff
all seven preconditions hold, the checks happen in the §4.1 order, and
the first violated precondition determines exactly which error the
caller receives, regardless of later preconditions. -/
theorem c1_tag_precondition_order (w : World) (u t : String) (now : Int) :
    (w.game = none → (tagAnotherPlayer w u t now).1 = Reply.noGame) ∧
    (∀ g, w.game = some g → t = "" →
      (tagAnotherPlayer w u t now).1 = Reply.noTargetSpecified) ∧
    (∀ g, w.game = some g → ¬ t = "" → u ∉ g.players →
      (tagAnotherPlayer w u t now).1 = Reply.notAPlayer) ∧
    (∀ g, w.game = some g → ¬ t = "" → u ∈ g.players → ¬ g.target = some u →
      (tagAnotherPlayer w u t now).1 = Reply.notIt) ∧
    (∀ g, w.game = some g → ¬ t = "" → u ∈ g.players → g.target = some u →
      t ∉ g.players → (tagAnotherPlayer w u t now).1 = Reply.targetNotAPlayer) ∧
    (∀ g, w.game = some g → ¬ t = "" → u ∈ g.players → g.target = some u →
      t ∈ g.players → u = t → (tagAnotherPlayer w u t now).1 = Reply.selfTag) ∧
    (∀ g, w.game = some g → ¬ t = "" → u ∈ g.players → g.target = some u →
      t ∈ g.players → ¬ u = t →
      Int.fdiv (now - g.lastActionTimestamp) 5 < 5 →
      (tagAnotherPlayer w u t now).1 =
        Reply.cooldown (Int.fdiv (now - g.lastActionTimestamp) 5)) ∧
    ((tagAnotherPlayer w u t now).1 = Reply.ok ↔
      ∃ g, w.game = some g ∧ ¬ t = "" ∧ u ∈ g.players ∧ g.target = some u ∧
        t ∈ g.players ∧ ¬ u = t ∧
        5 ≤ Int.fdiv (now - g.lastActionTimestamp) 5) := by
  refine ⟨?_, ?_, ?_, ?_, ?_, ?_, ?_, ?_, ?_⟩
  · intro hw; rw [tag_err_noGame w u t now hw]
  · intro g hw h2; rw [tag_err_noTarget w g u t now hw h2]
  · intro g hw h2 h3; rw [tag_err_notAPlayer w g u t now hw h2 h3]
  · intro g hw h2 h3 h4; rw [tag_err_notIt w g u t now hw h2 h3 h4]
  · intro g hw h2 h3 h4 h5
    rw [tag_err_targetNotAPlayer w g u t now hw h2 h3 h4 h5]
  · intro g hw h2 h3 h4 h5 h6
    rw [tag_err_selfTag w g u t now hw h2 h3 h4 h5 h6]
  · intro g hw h2 h3 h4 h5 h6 h7
    rw [tag_cooldown_state w g u t now hw h2 h3 h4 h5 h6 h7]
  · intro hok
    cases hw : w.game with
    | none => rw [tag_err_noGame w u t now hw] at hok; exact absurd hok (by simp)
    | some g =>
      by_cases h2 : t = ""
      · rw [tag_err_noTarget w g u t now hw h2] at hok
        exact absurd hok (by simp)
      · by_cases h3 : u ∈ g.players
        · by_cases h4 : g.target = some u
          · by_cases h5 : t ∈ g.players
            · by_cases h6 : u = t
              · rw [tag_err_selfTag w g u t now hw h2 h3 h4 h5 h6] at hok
                exact absurd hok (by simp)
              · by_cases h7 : 5 ≤ Int.fdiv (now - g.lastActionTimestamp) 5
                · exact ⟨g, hw ▸ rfl, h2, h3, h4, h5, h6, h7⟩
                · rw [tag_cooldown_state w g u t now hw h2 h3 h4 h5 h6
                        (lt_of_not_le h7)] at hok
                  exact absurd hok (by simp)
            · rw [tag_err_targetNotAPlayer w g u t now hw h2 h3 h4 h5] at hok
              exact absurd hok (by simp)
          · rw [tag_err_notIt w g u t now hw h2 h3 h4] at hok
            exact absurd hok (by simp)
        · rw [tag_err_notAPlayer w g u t now hw h2 h3] at hok
          exact absurd hok (by simp)
  · rintro ⟨g, hw, h2, h3, h4, h5, h6, h7⟩
    rw [tag_success_state w g u t now hw h2 h3 h4 h5 h6 h7]

/-- Witness for the amended C1: a concrete request that passes all
seven preconditions succeeds. -/
theorem c1_tag_precondition_order_witness :
    (tagAnotherPlayer (run World.init [Op.start "A" 0, Op.join "B"]) "A" "B"
      50).1 = Reply.ok :=
  (c1_tag_precondition_order (run World.init [Op.start "A" 0, Op.join "B"])
      "A" "B" 50).2.2.2.2.2.2.2.mpr
    ⟨TagGame.mk ["A", "B"] [("A", 0), ("B", 0)] (some "A") true none (some "A") 0,
     by decide, by decide, by decide, by decide, by decide, by decide, by decide⟩

end TagBot
